import Mathlib

/-!
Verification of the Generation Orchestration Pipeline
(`src/blog-generator/src/app/api/generate/route.ts`).

The pure control flow of the route is embedded shallowly: external
collaborators (the spell-check service, the image renderer, the product
scraper, the language model) are passed in as function-valued parameters
or explicit values, exactly at the boundaries where `route.ts` calls them.
Every definition below is transcribed from the TypeScript source; line
numbers in the doc comments refer to `route.ts`.
-/

/-- A product snapshot as returned by `scrapeProductSnapshot`.  The
orchestrator treats it as opaque and merely forwards it into the
response, so it is modelled as a wrapper around an uninterpreted value. -/
structure ProductSnapshot where
  raw : String
  deriving Repr, DecidableEq

/-- One article section `{heading, body}` (see `article.sections` usage at
route.ts lines 131 and 144-147). -/
structure ArticleSection where
  heading : String
  body : String
  deriving Repr, DecidableEq

/-- One FAQ entry `{heading, body}` (route.ts lines 137-156). -/
structure FaqEntry where
  heading : String
  body : String
  deriving Repr, DecidableEq

/-- One affiliate placement block `{platform, context, link}` produced by
the drafting stage and forwarded untouched. -/
structure AffiliateBlock where
  platform : String
  context : String
  link : String
  deriving Repr, DecidableEq

/-- The typed article shape (`GeneratedArticle` in `lib/types`), as used by
the pipeline after drafting: route.ts lines 104-118 normalize the parsed
payload into exactly these fields. -/
structure GeneratedArticle where
  title : String
  slug : String
  metaDescription : String
  excerpt : String
  callToAction : String
  sections : List ArticleSection
  faqs : List FaqEntry
  affiliateBlocks : List AffiliateBlock
  imagePrompts : List String
  deriving Repr, DecidableEq

/-- One affiliate platform configuration entry `{baseUrl, tag}`
(requestSchema, route.ts lines 24-32). -/
structure AffiliateEntry where
  baseUrl : String
  tag : String
  deriving Repr, DecidableEq

/-- The validated request body (requestSchema, route.ts lines 15-34).
`affiliateConfig` is the record platform -> entry; an absent/undefined
entry is `none` (the TypeScript record type is
`Partial(Record(platform, {baseUrl, tag}))`, so an entry either has both
fields or is absent). -/
structure GenerationRequest where
  productUrl : String
  targetLanguage : String
  targetRegion : String
  seoKeywords : List String
  persona : String
  tone : String
  minimumWordCount : Nat
  includeImages : Bool
  affiliateConfig : List (String × Option AffiliateEntry)
  additionalNotes : Option String
  deriving Repr, DecidableEq

/-- Result of one `runSpellcheck(text, language)` call:
`{corrected, adjustments}` (spell-check collaborator, spec section 6). -/
structure SpellResult where
  corrected : String
  adjustments : List String
  deriving Repr, DecidableEq

/-- Result of one `spellcheckSections(texts, language)` call:
`{corrected, adjustments}` with `corrected` a list (spec section 4.3). -/
structure SectionsSpellResult where
  corrected : List String
  adjustments : List String
  deriving Repr, DecidableEq

/-- One rendered image `{imageUrl, prompt}` as produced by the image
rendering collaborator. -/
structure GeneratedImage where
  imageUrl : String
  prompt : String
  deriving Repr, DecidableEq

/-- The success payload (`responsePayload`, route.ts lines 203-218).
`nanoBananaImages = none` models the field being absent (`undefined`). -/
structure GenerationResponse where
  product : ProductSnapshot
  article : GeneratedArticle
  spellingAdjustments : List String
  geoHighlights : List String
  nanoBananaImages : Option (List GeneratedImage)
  deriving Repr, DecidableEq

/-- `Promise.all` over the per-prompt render calls (route.ts lines
170-176): each prompt is rendered by
`generateNanoBananaImages([prompt]).then(res => res[0])`; the combined
promise resolves with the results in prompt order, and rejects as soon as
any single call rejects.  A rejecting call is modelled by the render
oracle returning `none`. -/
def promiseAll (render : String → Option GeneratedImage) :
    List String → Option (List GeneratedImage)
  | [] => some []
  | p :: rest =>
    match render p, promiseAll render rest with
    | some img, some imgs => some (img :: imgs)
    | _, _ => none

/-- The image stage (route.ts lines 165-180): `generatedImages` starts as
`[]`; if `input.includeImages && article.imagePrompts?.length` the render
calls run under `pLimit(2)` and `Promise.all`; the surrounding
`try/catch` swallows any rejection, leaving `generatedImages = []`. -/
def imageStage (includeImages : Bool) (prompts : List String)
    (render : String → Option GeneratedImage) : List GeneratedImage :=
  if includeImages && !prompts.isEmpty then
    match promiseAll render prompts with
    | some imgs => imgs
    | none => []
  else []

/-- JavaScript `str.split(sep)` for a single-character separator,
character-list worker: splits at every occurrence of `sep`, keeping empty
pieces, so the result always has at least one element and
`"".split(sep) = [""]`. -/
def splitCharAux (sep : Char) : List Char → List Char → List String
  | [], acc => [String.mk acc.reverse]
  | c :: rest, acc =>
    if c = sep then String.mk acc.reverse :: splitCharAux sep rest []
    else splitCharAux sep rest (c :: acc)

/-- JavaScript `str.split(sep)` for a single-character separator. -/
def jsSplitChar (sep : Char) (s : String) : List String :=
  splitCharAux sep s.toList []

/-- JavaScript `arr.join(sep)`: `[] -> ""`, singleton unchanged,
otherwise the pieces interleaved with `sep`. -/
def jsJoin (sep : String) : List String → String
  | [] => ""
  | [x] => x
  | x :: xs => x ++ sep ++ jsJoin sep xs

/-- Whitespace stripped by JavaScript `String.prototype.trim`, restricted
to the ASCII whitespace characters (the Unicode space classes that trim
also strips never occur in the strings this development evaluates). -/
def isJsWhitespace (c : Char) : Bool :=
  c = ' ' || c = '\t' || c = '\n' || c = '\r' ||
  c = Char.ofNat 11 || c = Char.ofNat 12

/-- JavaScript `str.trim()`. -/
def jsTrim (s : String) : String :=
  String.mk (((s.toList.dropWhile (fun c => isJsWhitespace c)).reverse.dropWhile
    (fun c => isJsWhitespace c)).reverse)

/-- JavaScript `[...arr].map((x, i) => f(i, x))` with explicit start
index, used to model the indexed `.map` calls at route.ts lines 144-156. -/
def mapIdxFrom (f : Nat → α → β) (n : Nat) : List α → List β
  | [] => []
  | x :: xs => f n x :: mapIdxFrom f (n + 1) xs

/-- JavaScript `arr.map((x, index) => f(index, x))`. -/
def mapWithIndex (f : Nat → α → β) (l : List α) : List β :=
  mapIdxFrom f 0 l

/-- The FAQ serialization sent to spellcheck (route.ts line 139):
each FAQ as the template literal `heading\nbody`. -/
def faqSerialize (f : FaqEntry) : String :=
  f.heading ++ "\n" ++ f.body

/-- The body of `POST` after drafting succeeded (route.ts lines 131-218),
for a well-typed article.  The spell-check collaborator is passed in as
the pair of oracles `spellcheckSections` / `runSpellcheck` (imported from
`lib/spellcheck` in the source) and the image renderer as `render`; the
orchestration logic itself — FAQ splitting, geoHighlights construction,
the image stage with its failure collapse, the adjustment concatenation
and the conditional `nanoBananaImages` field — is transcribed from the
source. -/
def processArticle (input : GenerationRequest) (product : ProductSnapshot)
    (article : GeneratedArticle)
    (spellcheckSections : List String → String → SectionsSpellResult)
    (runSpellcheck : String → String → SpellResult)
    (render : String → Option GeneratedImage) : GenerationResponse :=
  let sectionBodies := article.sections.map (fun s => s.body)
  let sectionResult := spellcheckSections sectionBodies input.targetLanguage
  let correctedFaqs :=
    if article.faqs.length ≠ 0 then
      spellcheckSections (article.faqs.map faqSerialize) input.targetLanguage
    else ⟨[], []⟩
  let sections := mapWithIndex (fun i s =>
    { s with body := (sectionResult.corrected.get? i).getD s.body })
    article.sections
  let faqs := mapWithIndex (fun i f =>
    let corrected := (correctedFaqs.corrected.get? i).getD ""
    let parts := jsSplitChar '\n' corrected
    let heading := parts.headD ""
    let body := jsJoin "\n" parts.tail
    { heading := if heading = "" then f.heading else heading,
      body := if body = "" then f.body else body : FaqEntry })
    article.faqs
  let geoHighlights :=
    ["Optimized for " ++ input.targetRegion ++ " audience",
     "Keywords: " ++ jsJoin ", " input.seoKeywords] ++
    (match input.additionalNotes with
     | some notes => if notes = "" then [] else [notes]
     | none => [])
  let generatedImages := imageStage input.includeImages article.imagePrompts render
  let titleCheck := runSpellcheck article.title input.targetLanguage
  let metaCheck := runSpellcheck article.metaDescription input.targetLanguage
  let excerptCheck := runSpellcheck article.excerpt input.targetLanguage
  let ctaCheck := runSpellcheck article.callToAction input.targetLanguage
  { product := product,
    article := { article with
      sections := sections,
      faqs := faqs,
      title := jsTrim titleCheck.corrected,
      metaDescription := jsTrim metaCheck.corrected,
      excerpt := jsTrim excerptCheck.corrected,
      callToAction := jsTrim ctaCheck.corrected },
    spellingAdjustments :=
      sectionResult.adjustments ++ correctedFaqs.adjustments ++
      titleCheck.adjustments ++ metaCheck.adjustments ++
      excerptCheck.adjustments ++ ctaCheck.adjustments,
    geoHighlights := geoHighlights,
    nanoBananaImages :=
      if generatedImages.length ≠ 0 then some generatedImages else none }

/-! ## JSON model (drafting stage)

`assembleArticle` (route.ts lines 51-119) parses the language model's
message content with `JSON.parse` and then normalizes the parsed object
in place.  JSON values are embedded as the inductive `Json`; numbers are
modelled as integers (the modelled parser rejects fractional or exponent
literals, which only affects payloads no claim evaluates). -/

inductive Json where
  | null
  | bool (b : Bool)
  | num (n : Int)
  | str (s : String)
  | arr (elems : List Json)
  | obj (fields : List (String × Json))
  deriving Repr, Inhabited

/-- JSON insignificant whitespace. -/
def skipWs : List Char → List Char
  | c :: rest =>
    if c = ' ' || c = '\t' || c = '\n' || c = '\r' then skipWs rest else c :: rest
  | [] => []

/-- The remainder of a JSON string literal after its opening quote,
with the common escapes (`\uXXXX` escapes are not modelled and make the
parse fail; no claim evaluates such a payload). -/
def parseStringChars : List Char → List Char → Option (String × List Char)
  | [], _ => none
  | '"' :: rest, acc => some (String.mk acc.reverse, rest)
  | '\\' :: c :: rest, acc =>
    if c = '"' then parseStringChars rest ('"' :: acc)
    else if c = '\\' then parseStringChars rest ('\\' :: acc)
    else if c = '/' then parseStringChars rest ('/' :: acc)
    else if c = 'n' then parseStringChars rest ('\n' :: acc)
    else if c = 't' then parseStringChars rest ('\t' :: acc)
    else if c = 'r' then parseStringChars rest ('\r' :: acc)
    else if c = 'b' then parseStringChars rest (Char.ofNat 8 :: acc)
    else if c = 'f' then parseStringChars rest (Char.ofNat 12 :: acc)
    else none
  | c :: rest, acc =>
    if c = '\\' then none else parseStringChars rest (c :: acc)

/-- Longest leading run of decimal digits. -/
def parseDigits : List Char → List Char → List Char × List Char
  | c :: rest, acc =>
    if c.isDigit then parseDigits rest (c :: acc) else (acc.reverse, c :: rest)
  | [], acc => (acc.reverse, [])

def digitsToNat (ds : List Char) : Nat :=
  ds.foldl (fun acc c => acc * 10 + (c.toNat - 48)) 0

/-- A JSON integer literal with optional leading minus sign. -/
def parseNumber (cs : List Char) : Option (Json × List Char) :=
  let (neg, cs1) := match cs with
    | '-' :: rest => (true, rest)
    | _ => (false, cs)
  match parseDigits cs1 [] with
  | ([], _) => none
  | (ds, rest) =>
    let n : Int := Int.ofNat (digitsToNat ds)
    some (Json.num (if neg then -n else n), rest)

mutual

/-- One JSON value, returning the unconsumed remainder; the fuel bounds
the nesting recursion and is chosen larger than any possible nesting
depth of the input by `Json.parse`. -/
def parseJsonValue : Nat → List Char → Option (Json × List Char)
  | 0, _ => none
  | fuel + 1, cs =>
    match skipWs cs with
    | 'n' :: 'u' :: 'l' :: 'l' :: rest => some (Json.null, rest)
    | 't' :: 'r' :: 'u' :: 'e' :: rest => some (Json.bool true, rest)
    | 'f' :: 'a' :: 'l' :: 's' :: 'e' :: rest => some (Json.bool false, rest)
    | '"' :: rest => (parseStringChars rest []).map (fun p => (Json.str p.1, p.2))
    | '[' :: rest =>
      (match skipWs rest with
       | ']' :: r2 => some (Json.arr [], r2)
       | r2 => parseJsonElems fuel r2 [])
    | '{' :: rest =>
      (match skipWs rest with
       | '}' :: r2 => some (Json.obj [], r2)
       | r2 => parseJsonFields fuel r2 [])
    | c :: rest =>
      if c = '-' || c.isDigit then parseNumber (c :: rest) else none
    | [] => none

/-- The elements of a JSON array after its opening bracket. -/
def parseJsonElems : Nat → List Char → List Json → Option (Json × List Char)
  | 0, _, _ => none
  | fuel + 1, cs, acc =>
    match parseJsonValue fuel cs with
    | some (v, rest) =>
      (match skipWs rest with
       | ',' :: r2 => parseJsonElems fuel r2 (acc ++ [v])
       | ']' :: r2 => some (Json.arr (acc ++ [v]), r2)
       | _ => none)
    | none => none

/-- The members of a JSON object after its opening brace. -/
def parseJsonFields : Nat → List Char → List (String × Json) → Option (Json × List Char)
  | 0, _, _ => none
  | fuel + 1, cs, acc =>
    match skipWs cs with
    | '"' :: rest =>
      (match parseStringChars rest [] with
       | some (k, r1) =>
         (match skipWs r1 with
          | ':' :: r2 =>
            (match parseJsonValue fuel r2 with
             | some (v, r3) =>
               (match skipWs r3 with
                | ',' :: r4 => parseJsonFields fuel r4 (acc ++ [(k, v)])
                | '}' :: r4 => some (Json.obj (acc ++ [(k, v)]), r4)
                | _ => none)
             | none => none)
          | _ => none)
       | none => none)
    | _ => none

end

/-- `JSON.parse`: a whole JSON text, requiring only trailing whitespace
after the value.  `JSON.parse("")` throws, modelled by `none`. -/
def Json.parse (s : String) : Option Json :=
  match parseJsonValue (2 * s.length + 2) s.toList with
  | some (v, rest) => if (skipWs rest).isEmpty then some v else none
  | none => none

/-- JavaScript property lookup on a parsed JSON object: `none` models
`undefined` (absent property).  `JSON.parse` keeps the last occurrence
of a duplicated key, so lookup takes the last binding. -/
def lookupField (fields : List (String × Json)) (key : String) : Option Json :=
  (fields.reverse.find? (fun p => p.1 == key)).map (fun p => p.2)

/-- The article fields after the in-place normalization of route.ts lines
104-116.  Every field of the record is defined (never "missing"), but its
value is whatever the assignments produce, hence still `Json`-typed. -/
structure JsonArticle where
  title : Json
  slug : Json
  metaDescription : Json
  excerpt : Json
  callToAction : Json
  sections : Json
  faqs : Json
  affiliateBlocks : Json
  imagePrompts : Json
  deriving Repr, Inhabited

/-- `parsed.x = Array.isArray(parsed.x) ? parsed.x : []`
(route.ts lines 104-111): a non-array or absent value becomes `[]`. -/
def coerceArray (fields : List (String × Json)) (key : String) : Json :=
  match lookupField fields key with
  | some (Json.arr xs) => Json.arr xs
  | _ => Json.arr []

/-- `parsed.x = parsed.x ?? ""` (route.ts lines 112-116): only a nullish
value (absent property or JSON null) is replaced by the empty string;
any other value — of whatever shape — is kept unchanged. -/
def coerceNullish (fields : List (String × Json)) (key : String) : Json :=
  match lookupField fields key with
  | none => Json.str ""
  | some Json.null => Json.str ""
  | some v => v

/-- The normalization block of `assembleArticle` (route.ts lines 104-116)
applied to the members of a parsed JSON object. -/
def normalizeArticle (fields : List (String × Json)) : JsonArticle :=
  { title := coerceNullish fields "title",
    slug := coerceNullish fields "slug",
    metaDescription := coerceNullish fields "metaDescription",
    excerpt := coerceNullish fields "excerpt",
    callToAction := coerceNullish fields "callToAction",
    sections := coerceArray fields "sections",
    faqs := coerceArray fields "faqs",
    affiliateBlocks := coerceArray fields "affiliateBlocks",
    imagePrompts := coerceArray fields "imagePrompts" }

/-- The fallback string substituted at route.ts lines 92-94 when the
model message content is nullish. -/
def defaultArticleContent : String :=
  "\x7b\"title\":\"\",\"slug\":\"\",\"metaDescription\":\"\",\"excerpt\":\"\",\"sections\":[],\"callToAction\":\"\",\"faqs\":[],\"affiliateBlocks\":[],\"imagePrompts\":[]\x7d"

/-- `assembleArticle` after the model call returned (route.ts lines
92-118), as a function of the optional message content:
`response.choices[0]?.message?.content?.trim() ?? default` substitutes the
default only for a nullish content — an empty string survives the `??`
and then fails `JSON.parse`.  A parse failure is rethrown as
"Failed to parse article response from model" (lines 97-102).  When the
parse yields a non-object primitive, the strict-mode property assignment
at line 104 throws a TypeError, modelled by the second error branch; when
it yields an array, property assignment on the array object succeeds and
the named fields all get their defaults (the array has none of them). -/
def assembleArticle (content : Option String) : Except String JsonArticle :=
  let raw :=
    match content with
    | none => defaultArticleContent
    | some s => jsTrim s
  match Json.parse raw with
  | none => Except.error "Failed to parse article response from model"
  | some (Json.obj fields) => Except.ok (normalizeArticle fields)
  | some (Json.arr _) => Except.ok (normalizeArticle [])
  | some _ => Except.error "TypeError: cannot create property on a primitive"

def Json.asString : Json → Option String
  | .str s => some s
  | _ => none

def Json.asList : Json → Option (List Json)
  | .arr xs => some xs
  | _ => none

/-- A `{heading, body}` object read back as a typed section. -/
def sectionOfJson : Json → Option ArticleSection
  | .obj fields => do
    let h ← (lookupField fields "heading").bind Json.asString
    let b ← (lookupField fields "body").bind Json.asString
    pure ⟨h, b⟩
  | _ => none

/-- A `{heading, body}` object read back as a typed FAQ entry. -/
def faqOfJson : Json → Option FaqEntry
  | .obj fields => do
    let h ← (lookupField fields "heading").bind Json.asString
    let b ← (lookupField fields "body").bind Json.asString
    pure ⟨h, b⟩
  | _ => none

/-- A `{platform, context, link}` object read back as a typed block. -/
def blockOfJson : Json → Option AffiliateBlock
  | .obj fields => do
    let p ← (lookupField fields "platform").bind Json.asString
    let c ← (lookupField fields "context").bind Json.asString
    let l ← (lookupField fields "link").bind Json.asString
    pure ⟨p, c, l⟩
  | _ => none

/-- The typed reading of a normalized article, defined exactly when every
field has the shape the rest of the pipeline consumes (the TypeScript
`GeneratedArticle` type). -/
def jsonToTyped (a : JsonArticle) : Option GeneratedArticle := do
  let title ← a.title.asString
  let slug ← a.slug.asString
  let metaDescription ← a.metaDescription.asString
  let excerpt ← a.excerpt.asString
  let callToAction ← a.callToAction.asString
  let sections ← (← a.sections.asList).mapM sectionOfJson
  let faqs ← (← a.faqs.asList).mapM faqOfJson
  let affiliateBlocks ← (← a.affiliateBlocks.asList).mapM blockOfJson
  let imagePrompts ← (← a.imagePrompts.asList).mapM Json.asString
  pure { title := title, slug := slug, metaDescription := metaDescription,
         excerpt := excerpt, callToAction := callToAction,
         sections := sections, faqs := faqs,
         affiliateBlocks := affiliateBlocks, imagePrompts := imagePrompts }

/-- The all-empty normalized article produced from the fallback string. -/
def emptyJsonArticle : JsonArticle :=
  { title := Json.str "", slug := Json.str "", metaDescription := Json.str "",
    excerpt := Json.str "", callToAction := Json.str "",
    sections := Json.arr [], faqs := Json.arr [],
    affiliateBlocks := Json.arr [], imagePrompts := Json.arr [] }

/-- The all-empty typed article. -/
def emptyGeneratedArticle : GeneratedArticle :=
  { title := "", slug := "", metaDescription := "", excerpt := "",
    callToAction := "", sections := [], faqs := [],
    affiliateBlocks := [], imagePrompts := [] }

/-! ## URL model (AffiliateLinkBuilder)

`buildAffiliateLinks` (route.ts lines 36-49) uses the WHATWG `URL` class:
`new URL(baseUrl)`, two `searchParams.set` calls, and `toString()`.  The
class is a platform builtin, modelled here in simplified form: the part
before the query is kept verbatim (no host normalization or path
canonicalization — the modelled base URLs are already in canonical form),
the query is decomposed into parameters, and serialization uses the
form-urlencoded encoding that `URLSearchParams.toString()` applies. -/

/-- Whether `pre` is a prefix of `l`. -/
def listStartsWith : List Char → List Char → Bool
  | [], _ => true
  | _ :: _, [] => false
  | p :: ps, c :: cs => p == c && listStartsWith ps cs

/-- Split at the first occurrence of `sep` (nonempty): the part before it
and the part after it, or `none` when `sep` does not occur. -/
def breakOnFirst (sep : List Char) : List Char → Option (List Char × List Char)
  | [] => none
  | c :: cs =>
    if listStartsWith sep (c :: cs) then some ([], (c :: cs).drop sep.length)
    else
      match breakOnFirst sep cs with
      | some (pre, post) => some (c :: pre, post)
      | none => none

/-- A parsed URL: `base` is everything before the query
(scheme://authority/path), `params` the decomposed query, `fragment` the
part after the first `#`. -/
structure SimpleURL where
  base : String
  params : List (String × String)
  fragment : Option String
  deriving Repr, DecidableEq

/-- One `key=value` query segment (`key` alone means an empty value). -/
def parseQueryParam (part : String) : String × String :=
  match breakOnFirst ['='] part.toList with
  | some (k, v) => (String.mk k, String.mk v)
  | none => (part, "")

/-- Decompose a raw query string (without percent-decoding; the base URLs
this development evaluates carry no pre-existing query). -/
def parseQuery (q : String) : List (String × String) :=
  if q = "" then [] else (jsSplitChar '&' q).map parseQueryParam

/-- `new URL(s)`: `none` models the constructor throwing.  Validity is
approximated by a nonempty scheme followed by `://` and a nonempty
remainder; the fragment starts at the first `#`, the query at the first
`?` before it. -/
def parseURL (s : String) : Option SimpleURL :=
  match breakOnFirst [':', '/', '/'] s.toList with
  | none => none
  | some (scheme, rest) =>
    if scheme.isEmpty || rest.isEmpty then none
    else
      let fragSplit :=
        match breakOnFirst ['#'] rest with
        | some (b, f) => (b, some (String.mk f))
        | none => (rest, none)
      let querySplit :=
        match breakOnFirst ['?'] fragSplit.1 with
        | some (b, q) => (b, some (String.mk q))
        | none => (fragSplit.1, none)
      some { base := String.mk scheme ++ "://" ++ String.mk querySplit.1,
             params :=
               match querySplit.2 with
               | some q => parseQuery q
               | none => [],
             fragment := fragSplit.2 }

/-- Drop every entry carrying `key` (the "removes all other entries with
that name" part of `URLSearchParams.set`). -/
def removeParam : List (String × String) → String → List (String × String)
  | [], _ => []
  | (k, v) :: rest, key =>
    if k = key then removeParam rest key else (k, v) :: removeParam rest key

/-- `URLSearchParams.set(key, value)` (route.ts lines 44-45): replaces
the value of the first entry with that key and removes any further
entries with it; appends a new entry when the key is absent. -/
def setParam : List (String × String) → String → String → List (String × String)
  | [], key, value => [(key, value)]
  | (k, v) :: rest, key, value =>
    if k = key then (key, value) :: removeParam rest key
    else (k, v) :: setParam rest key value

/-- `URLSearchParams.get(key)`: the value of the first entry with the key. -/
def getParam : List (String × String) → String → Option String
  | [], _ => none
  | (k, v) :: rest, key => if k = key then some v else getParam rest key

/-- UTF-8 bytes of a character, as numbers. -/
def utf8Bytes (c : Char) : List Nat :=
  let n := c.toNat
  if n < 128 then [n]
  else if n < 2048 then [192 + n / 64, 128 + n % 64]
  else if n < 65536 then [224 + n / 4096, 128 + (n / 64) % 64, 128 + n % 64]
  else [240 + n / 262144, 128 + (n / 4096) % 64, 128 + (n / 64) % 64, 128 + n % 64]

/-- Uppercase hexadecimal digit. -/
def hexDigit (n : Nat) : Char :=
  if n < 10 then Char.ofNat (48 + n) else Char.ofNat (55 + n)

/-- One byte under the application/x-www-form-urlencoded serialization
used by `URLSearchParams.toString()`: space becomes `+`, ASCII
alphanumerics and `*-._` are kept, every other byte is percent-encoded. -/
def encodeByte (b : Nat) : String :=
  if b = 32 then "+"
  else if (48 ≤ b && b ≤ 57) || (65 ≤ b && b ≤ 90) || (97 ≤ b && b ≤ 122) ||
      b = 42 || b = 45 || b = 46 || b = 95 then String.mk [Char.ofNat b]
  else String.mk ['%', hexDigit (b / 16), hexDigit (b % 16)]

/-- form-urlencoded serialization of a string. -/
def formEncode (s : String) : String :=
  String.join (s.toList.map (fun c => String.join ((utf8Bytes c).map encodeByte)))

/-- `URL.toString()` for the simplified model: the base, then `?` plus
the form-encoded query when any parameter is present, then the fragment. -/
def serializeURL (u : SimpleURL) : String :=
  u.base ++
  (if u.params.isEmpty then ""
   else "?" ++ jsJoin "&"
     (u.params.map (fun p => formEncode p.1 ++ "=" ++ formEncode p.2))) ++
  (match u.fragment with
   | some f => "#" ++ f
   | none => "")

/-- `buildAffiliateLinks` (route.ts lines 36-49): iterate the affiliate
configuration entries in order; `if (!config) continue` skips an
absent/undefined entry; otherwise parse the base URL (a malformed one
makes `new URL` throw — the `Except.error` branch, fatal to the caller),
set the `ref` and `target` query parameters and store the serialized
URL under the platform key. -/
def buildAffiliateLinks : List (String × Option AffiliateEntry) → String →
    Except String (List (String × String))
  | [], _ => Except.ok []
  | (platform, config) :: rest, productUrl =>
    match config with
    | none => buildAffiliateLinks rest productUrl
    | some entry =>
      match parseURL entry.baseUrl with
      | none => Except.error "Invalid URL"
      | some url =>
        let urlSet : SimpleURL :=
          { url with params := setParam (setParam url.params "ref" entry.tag) "target" productUrl }
        match buildAffiliateLinks rest productUrl with
        | Except.ok links => Except.ok ((platform, serializeURL urlSet) :: links)
        | Except.error e => Except.error e

/-- The requestSchema checks (route.ts lines 15-34) as a boolean
predicate on an already-typed request: zod's `.url()` is approximated by
`parseURL` succeeding, and `.min(n)` on a string by a length bound (zod
counts UTF-16 units, the model counts characters; these agree on the
strings this development evaluates). -/
def checkRequest (r : GenerationRequest) : Bool :=
  (parseURL r.productUrl).isSome &&
  decide (2 ≤ r.targetLanguage.length) &&
  decide (2 ≤ r.targetRegion.length) &&
  decide (1 ≤ r.seoKeywords.length) &&
  r.seoKeywords.all (fun k => decide (2 ≤ k.length)) &&
  decide (2 ≤ r.persona.length) &&
  decide (2 ≤ r.tone.length) &&
  decide (400 ≤ r.minimumWordCount) &&
  decide (r.minimumWordCount ≤ 4000) &&
  r.affiliateConfig.all (fun p =>
    match p.2 with
    | none => true
    | some e => (parseURL e.baseUrl).isSome && decide (1 ≤ e.tag.length))

/-! ## Image-stage concurrency (p-limit)

Modelled from the spec: the render calls at route.ts lines 168-176 are
wrapped by `pLimit(2)`, where `p-limit` is an npm dependency whose source
is not part of this repository.  Spec section 5 describes its contract —
"the image-rendering calls ... run concurrently up to a fixed cap of 2
in-flight external calls, queuing remaining prompts behind that cap".
The limiter is embedded as a small-step transition system: a task may
start only while fewer than `limit` calls are active, and an active call
may finish; every interleaving of these two step kinds is covered. -/

/-- Scheduler state of the limited image batch: prompts still queued,
render calls in flight, calls completed. -/
structure LimiterState where
  queued : Nat
  active : Nat
  completed : Nat
  deriving Repr, DecidableEq

/-- One scheduler step: `start` dequeues a task while strictly fewer than
`limit` calls are active; `finish` completes an active call. -/
inductive LimiterStep (limit : Nat) : LimiterState → LimiterState → Prop
  | start (s : LimiterState) (hq : 0 < s.queued) (ha : s.active < limit) :
      LimiterStep limit s ⟨s.queued - 1, s.active + 1, s.completed⟩
  | finish (s : LimiterState) (ha : 0 < s.active) :
      LimiterStep limit s ⟨s.queued, s.active - 1, s.completed + 1⟩

/-- The initial scheduler state of the image stage: one queued task per
image prompt (route.ts line 171), nothing started. -/
def limiterInit (article : GeneratedArticle) : LimiterState :=
  ⟨article.imagePrompts.length, 0, 0⟩

/-- The states the image batch of `article` can reach under a
concurrency cap of `limit`. -/
def LimiterReachable (limit : Nat) (article : GeneratedArticle)
    (s : LimiterState) : Prop :=
  Relation.ReflTransGen (LimiterStep limit) (limiterInit article) s

/-! ## Sample values used by witnesses and counterexamples -/

/-- A concrete product snapshot. -/
def sampleProduct : ProductSnapshot := ⟨"product-snapshot"⟩

/-- A concrete request passing every requestSchema check, with images
requested. -/
def sampleRequest : GenerationRequest :=
  { productUrl := "https://example.com/p", targetLanguage := "pt-BR",
    targetRegion := "Brazil",
    seoKeywords := ["melhor preço", "review completo"],
    persona := "Specialist reviewer", tone := "Conversational",
    minimumWordCount := 1800, includeImages := true,
    affiliateConfig := [("amazon", some ⟨"https://amzn.to/x", "tag123"⟩)],
    additionalNotes := none }

/-- The same request with the include-images flag off. -/
def sampleRequestNoImages : GenerationRequest :=
  { sampleRequest with includeImages := false }

/-- A concrete article with one section, one FAQ and two image prompts. -/
def sampleArticle : GeneratedArticle :=
  { title := "T", slug := "t", metaDescription := "M", excerpt := "E",
    callToAction := "C", sections := [⟨"S1", "B1"⟩],
    faqs := [⟨"H", "B"⟩], affiliateBlocks := [],
    imagePrompts := ["p1", "p2"] }

/-- A concrete article with three image prompts (used for the limiter
bound). -/
def sampleArticleThreePrompts : GeneratedArticle :=
  { sampleArticle with imagePrompts := ["q1", "q2", "q3"] }

/-- A sections-spellcheck oracle that corrects nothing. -/
def sampleSpellSectionsId : List String → String → SectionsSpellResult :=
  fun texts _ => ⟨texts, []⟩

/-- A sections-spellcheck oracle whose corrected text is the single block
"CORRECTED" — in particular a corrected FAQ string with no newline. -/
def sampleSpellSectionsConst : List String → String → SectionsSpellResult :=
  fun _ _ => ⟨["CORRECTED"], ["changed a word"]⟩

/-- A single-text spellcheck oracle that corrects nothing. -/
def sampleSpellId : String → String → SpellResult :=
  fun s _ => ⟨s, []⟩

/-- A render oracle for which every call succeeds. -/
def sampleRenderOk : String → Option GeneratedImage :=
  fun p => some ⟨"https://img.example/" ++ p, p⟩

/-- A render oracle for which the call for "p1" succeeds and every other
call fails. -/
def sampleRenderPartial : String → Option GeneratedImage :=
  fun p => if p = "p1" then some ⟨"url1", "p1"⟩ else none

/-! ## Helper lemmas -/

/-- Indexing into an indexed map. -/
theorem get?_mapIdxFrom (f : Nat → α → β) (l : List α) (n i : Nat) :
    (mapIdxFrom f n l).get? i = (l.get? i).map (fun a => f (n + i) a) := by
  induction l generalizing n i with
  | nil => simp [mapIdxFrom]
  | cons x xs ih =>
    cases i with
    | zero => simp [mapIdxFrom]
    | succ j =>
      simp only [mapIdxFrom, List.get?_cons_succ, ih, Nat.add_succ, Nat.succ_add]

/-- Indexing into `mapWithIndex`. -/
theorem get?_mapWithIndex (f : Nat → α → β) (l : List α) (i : Nat) :
    (mapWithIndex f l).get? i = (l.get? i).map (fun a => f i a) := by
  have h := get?_mapIdxFrom f l 0 i
  simpa [mapWithIndex] using h

/-- `Promise.all` rejects when any single render call rejects. -/
theorem promiseAll_eq_none (render : String → Option GeneratedImage)
    (prompts : List String) (p : String) (hp : p ∈ prompts)
    (hr : render p = none) : promiseAll render prompts = none := by
  induction prompts with
  | nil => cases hp
  | cons q rest ih =>
    cases hp with
    | head => simp [promiseAll, hr]
    | tail _ hmem => cases hq : render q <;> simp [promiseAll, hq, ih hmem]

/-- The image stage produces nothing whenever one of its render calls
fails (the catch at route.ts lines 177-179 discards the whole batch). -/
theorem imageStage_eq_nil (b : Bool) (prompts : List String)
    (render : String → Option GeneratedImage) (p : String)
    (hp : p ∈ prompts) (hr : render p = none) :
    imageStage b prompts render = [] := by
  cases b with
  | false => rfl
  | true =>
    have hne : prompts.isEmpty = false := by
      cases prompts with
      | nil => cases hp
      | cons q rest => rfl
    simp [imageStage, hne, promiseAll_eq_none render prompts p hp hr]

/-- The response's image field, read off the definition. -/
theorem processArticle_nanoBananaImages (input : GenerationRequest)
    (product : ProductSnapshot) (article : GeneratedArticle)
    (spellS : List String → String → SectionsSpellResult)
    (spell : String → String → SpellResult)
    (render : String → Option GeneratedImage) :
    (processArticle input product article spellS spell render).nanoBananaImages =
      if (imageStage input.includeImages article.imagePrompts render).length ≠ 0
      then some (imageStage input.includeImages article.imagePrompts render)
      else none := rfl

/-- The response's FAQ list, read off the definition. -/
theorem processArticle_article_faqs (input : GenerationRequest)
    (product : ProductSnapshot) (article : GeneratedArticle)
    (spellS : List String → String → SectionsSpellResult)
    (spell : String → String → SpellResult)
    (render : String → Option GeneratedImage) :
    (processArticle input product article spellS spell render).article.faqs =
      mapWithIndex (fun i f =>
        let corrected :=
          ((if article.faqs.length ≠ 0 then
              spellS (article.faqs.map faqSerialize) input.targetLanguage
            else ⟨[], []⟩ : SectionsSpellResult).corrected.get? i).getD ""
        let parts := jsSplitChar '\n' corrected
        let heading := parts.headD ""
        let body := jsJoin "\n" parts.tail
        ({ heading := if heading = "" then f.heading else heading,
           body := if body = "" then f.body else body } : FaqEntry))
        article.faqs := rfl

/-! ## Claims -/

/-- C7: for every request, the geoHighlights sequence of the response is,
in order: one entry naming the target region of the form
"Optimized for (region) audience", one entry
"Keywords: (all keywords comma-joined in input order)", and a third entry
containing the free-text notes if and only if notes were supplied
non-empty. -/
theorem c7_geoHighlights_shape (input : GenerationRequest)
    (product : ProductSnapshot) (article : GeneratedArticle)
    (spellS : List String → String → SectionsSpellResult)
    (spell : String → String → SpellResult)
    (render : String → Option GeneratedImage) :
    ((processArticle input product article spellS spell render).geoHighlights.get? 0 =
        some ("Optimized for " ++ input.targetRegion ++ " audience")) ∧
    ((processArticle input product article spellS spell render).geoHighlights.get? 1 =
        some ("Keywords: " ++ jsJoin ", " input.seoKeywords)) ∧
    (∀ notes, input.additionalNotes = some notes → notes ≠ "" →
      (processArticle input product article spellS spell render).geoHighlights =
        ["Optimized for " ++ input.targetRegion ++ " audience",
         "Keywords: " ++ jsJoin ", " input.seoKeywords, notes]) ∧
    ((input.additionalNotes = none ∨ input.additionalNotes = some "") →
      (processArticle input product article spellS spell render).geoHighlights =
        ["Optimized for " ++ input.targetRegion ++ " audience",
         "Keywords: " ++ jsJoin ", " input.seoKeywords]) := by
  have h : (processArticle input product article spellS spell render).geoHighlights =
      ["Optimized for " ++ input.targetRegion ++ " audience",
       "Keywords: " ++ jsJoin ", " input.seoKeywords] ++
      (match input.additionalNotes with
       | some notes => if notes = "" then [] else [notes]
       | none => []) := rfl
  refine ⟨by rw [h]; rfl, by rw [h]; rfl, ?_, ?_⟩
  · intro notes hn hne
    rw [h, hn]
    simp [hne]
  · rintro (hn | hn) <;> rw [h, hn] <;> simp

/-- C7 witness: a concrete request without notes has exactly the two
entries, in order. -/
theorem c7_geoHighlights_shape_witness :
    (processArticle sampleRequest sampleProduct sampleArticle
        sampleSpellSectionsId sampleSpellId sampleRenderOk).geoHighlights =
      ["Optimized for Brazil audience",
       "Keywords: melhor preço, review completo"] :=
  (c7_geoHighlights_shape sampleRequest sampleProduct sampleArticle
      sampleSpellSectionsId sampleSpellId sampleRenderOk).2.2.2 (Or.inl rfl)

/-- C8: for every successful request, the spellingAdjustments sequence of
the response is the concatenation, in this fixed order, of the
adjustments produced for the section bodies, then the FAQ pairs, then the
title, then the meta description, then the excerpt, then the
call-to-action. -/
theorem c8_adjustments_order (input : GenerationRequest)
    (product : ProductSnapshot) (article : GeneratedArticle)
    (spellS : List String → String → SectionsSpellResult)
    (spell : String → String → SpellResult)
    (render : String → Option GeneratedImage) :
    (processArticle input product article spellS spell render).spellingAdjustments =
      (spellS (article.sections.map (fun s => s.body)) input.targetLanguage).adjustments ++
      (if article.faqs.length ≠ 0 then
          spellS (article.faqs.map faqSerialize) input.targetLanguage
        else ⟨[], []⟩ : SectionsSpellResult).adjustments ++
      (spell article.title input.targetLanguage).adjustments ++
      (spell article.metaDescription input.targetLanguage).adjustments ++
      (spell article.excerpt input.targetLanguage).adjustments ++
      (spell article.callToAction input.targetLanguage).adjustments := rfl

/-- C4: for every successful response, the image list field is present if
and only if the image stage produced at least one image; in particular,
for every valid request with include-images=false the response never
contains an image list field. -/
theorem c4_image_field_iff (input : GenerationRequest)
    (product : ProductSnapshot) (article : GeneratedArticle)
    (spellS : List String → String → SectionsSpellResult)
    (spell : String → String → SpellResult)
    (render : String → Option GeneratedImage) :
    ((processArticle input product article spellS spell render).nanoBananaImages.isSome ↔
      imageStage input.includeImages article.imagePrompts render ≠ []) ∧
    (checkRequest input = true → input.includeImages = false →
      (processArticle input product article spellS spell render).nanoBananaImages = none) := by
  constructor
  · rw [processArticle_nanoBananaImages]
    cases himg : imageStage input.includeImages article.imagePrompts render with
    | nil => simp
    | cons a l => simp
  · intro hvalid hfalse
    rw [processArticle_nanoBananaImages]
    have himg : imageStage input.includeImages article.imagePrompts render = [] := by
      rw [hfalse]; rfl
    rw [himg]
    rfl

/-- C4 witness: a concrete valid request with the include-images flag off
yields a response without the image list field. -/
theorem c4_image_field_iff_witness :
    (processArticle sampleRequestNoImages sampleProduct sampleArticle
        sampleSpellSectionsId sampleSpellId sampleRenderOk).nanoBananaImages = none :=
  (c4_image_field_iff sampleRequestNoImages sampleProduct sampleArticle
      sampleSpellSectionsId sampleSpellId sampleRenderOk).2 (by decide) rfl

/-- C3: for every request in which at least one image render call fails
(images requested and some prompt's render call rejects), the image stage
yields no images and the returned response contains no image list field;
the failure is swallowed inside the stage (route.ts lines 177-179), so
the pipeline — total by construction here — still produces a success
response. -/
theorem c3_render_failure_degrades (input : GenerationRequest)
    (product : ProductSnapshot) (article : GeneratedArticle)
    (spellS : List String → String → SectionsSpellResult)
    (spell : String → String → SpellResult)
    (render : String → Option GeneratedImage) (p : String)
    (hinc : input.includeImages = true) (hp : p ∈ article.imagePrompts)
    (hr : render p = none) :
    imageStage input.includeImages article.imagePrompts render = [] ∧
    (processArticle input product article spellS spell render).nanoBananaImages = none := by
  have himg := imageStage_eq_nil input.includeImages article.imagePrompts render p hp hr
  exact ⟨himg, by rw [processArticle_nanoBananaImages, himg]; rfl⟩

/-- C3 witness: with prompts ["p1", "p2"] and the render call for "p2"
failing, the stage yields nothing and the response has no image field. -/
theorem c3_render_failure_degrades_witness :
    imageStage sampleRequest.includeImages sampleArticle.imagePrompts
        sampleRenderPartial = [] ∧
    (processArticle sampleRequest sampleProduct sampleArticle
        sampleSpellSectionsId sampleSpellId sampleRenderPartial).nanoBananaImages = none :=
  c3_render_failure_degrades sampleRequest sampleProduct sampleArticle
    sampleSpellSectionsId sampleSpellId sampleRenderPartial "p2" rfl
    (by decide) rfl

/-- C1 counterexample: a run with N = 2 image prompts in which exactly
one render call fails (the one for "p2") and the other succeeds with the
image ("url1", "p1").  The final response contains no image list at all —
in particular not the claimed list of the N−1 = 1 successes. -/
theorem c1_counterexample :
    (processArticle sampleRequest sampleProduct sampleArticle
        sampleSpellSectionsId sampleSpellId sampleRenderPartial).nanoBananaImages = none ∧
    (processArticle sampleRequest sampleProduct sampleArticle
        sampleSpellSectionsId sampleSpellId sampleRenderPartial).nanoBananaImages ≠
      some [⟨"url1", "p1"⟩] := by
  exact ⟨rfl, by decide⟩

/-- C1 amended: if any of the render calls of the image stage fails, the
final response contains no image list at all — the remaining successes
are discarded with it (the catch at route.ts lines 177-179 drops the
whole batch). -/
theorem c1_amended_all_images_discarded (input : GenerationRequest)
    (product : ProductSnapshot) (article : GeneratedArticle)
    (spellS : List String → String → SectionsSpellResult)
    (spell : String → String → SpellResult)
    (render : String → Option GeneratedImage) (p : String)
    (hp : p ∈ article.imagePrompts) (hr : render p = none) :
    (processArticle input product article spellS spell render).nanoBananaImages = none := by
  rw [processArticle_nanoBananaImages,
    imageStage_eq_nil input.includeImages article.imagePrompts render p hp hr]
  rfl

/-- C1 amended witness: the concrete two-prompt run with one failing
call has no image list in its response. -/
theorem c1_amended_all_images_discarded_witness :
    (processArticle sampleRequest sampleProduct sampleArticle
        sampleSpellSectionsId sampleSpellId sampleRenderPartial).nanoBananaImages = none :=
  c1_amended_all_images_discarded sampleRequest sampleProduct sampleArticle
    sampleSpellSectionsId sampleSpellId sampleRenderPartial "p2" (by decide) rfl

/-- C2 counterexample: the FAQ ("H", "B") whose corrected string
"CORRECTED" contains no newline.  The code replaces the heading with the
whole corrected string and keeps the original body — not, as the claim
states, the original heading with the corrected string as body. -/
theorem c2_counterexample :
    (processArticle sampleRequest sampleProduct sampleArticle
        sampleSpellSectionsConst sampleSpellId sampleRenderOk).article.faqs =
      [⟨"CORRECTED", "B"⟩] ∧
    (processArticle sampleRequest sampleProduct sampleArticle
        sampleSpellSectionsConst sampleSpellId sampleRenderOk).article.faqs ≠
      [⟨"H", "CORRECTED"⟩] := by
  exact ⟨rfl, by decide⟩

/-- C2 amended: each corrected FAQ string is split at its newlines; the
part before the first newline becomes the heading unless it is empty (in
which case the original heading is kept), and the remainder, rejoined
with newlines, becomes the body unless it is empty (in which case the
original body is kept).  In particular, when the corrected string
contains no newline, the whole corrected string becomes the heading and
the original body is kept. -/
theorem c2_amended_faq_split (input : GenerationRequest)
    (product : ProductSnapshot) (article : GeneratedArticle)
    (spellS : List String → String → SectionsSpellResult)
    (spell : String → String → SpellResult)
    (render : String → Option GeneratedImage)
    (i : Nat) (f : FaqEntry) (hf : article.faqs.get? i = some f) :
    (processArticle input product article spellS spell render).article.faqs.get? i =
      some (
        let corrected := ((spellS (article.faqs.map faqSerialize)
            input.targetLanguage).corrected.get? i).getD ""
        let parts := jsSplitChar '\n' corrected
        let heading := parts.headD ""
        let body := jsJoin "\n" parts.tail
        ({ heading := if heading = "" then f.heading else heading,
           body := if body = "" then f.body else body } : FaqEntry)) := by
  have hlen : article.faqs.length ≠ 0 := by
    intro h0
    rw [List.length_eq_zero] at h0
    rw [h0] at hf
    cases hf
  rw [processArticle_article_faqs, get?_mapWithIndex, hf]
  simp [hlen]

/-- C2 amended witness: the concrete FAQ ("H", "B") with corrected
string "CORRECTED" becomes ("CORRECTED", "B"). -/
theorem c2_amended_faq_split_witness :
    (processArticle sampleRequest sampleProduct sampleArticle
        sampleSpellSectionsConst sampleSpellId sampleRenderOk).article.faqs.get? 0 =
      some ⟨"CORRECTED", "B"⟩ :=
  c2_amended_faq_split sampleRequest sampleProduct sampleArticle
    sampleSpellSectionsConst sampleSpellId sampleRenderOk 0 ⟨"H", "B"⟩ rfl

/-- The two coercion behaviors of `?? ""` (route.ts lines 112-116): a
nullish lookup yields the empty string; any other value is kept. -/
theorem coerceNullish_spec (fields : List (String × Json)) (key : String) :
    ((lookupField fields key = none ∨ lookupField fields key = some Json.null) →
      coerceNullish fields key = Json.str "") ∧
    (∀ v, lookupField fields key = some v → v ≠ Json.null →
      coerceNullish fields key = v) := by
  constructor
  · rintro (h | h) <;> simp [coerceNullish, h]
  · intro v hv hne
    cases v with
    | null => exact absurd rfl hne
    | bool b => simp [coerceNullish, hv]
    | num n => simp [coerceNullish, hv]
    | str s => simp [coerceNullish, hv]
    | arr xs => simp [coerceNullish, hv]
    | obj fs => simp [coerceNullish, hv]

/-- The two coercion behaviors of `Array.isArray(x) ? x : []`
(route.ts lines 104-111): an array is kept, anything else becomes `[]`. -/
theorem coerceArray_spec (fields : List (String × Json)) (key : String) :
    (∀ xs, lookupField fields key = some (Json.arr xs) →
      coerceArray fields key = Json.arr xs) ∧
    ((∀ xs, lookupField fields key ≠ some (Json.arr xs)) →
      coerceArray fields key = Json.arr []) := by
  constructor
  · intro xs h; simp [coerceArray, h]
  · intro h
    unfold coerceArray
    cases hl : lookupField fields key with
    | none => rfl
    | some v =>
      cases v with
      | null => rfl
      | bool b => rfl
      | num n => rfl
      | str s => rfl
      | arr xs => exact absurd hl (h xs)
      | obj fs => rfl

/-- C5 counterexample: the model payload with a numeric title parses
successfully as JSON; the claim says the wrong-shaped title is coerced to
the empty string, but normalization keeps the number unchanged. -/
theorem c5_counterexample :
    assembleArticle (some "\x7b\"title\":42\x7d") =
      Except.ok { title := Json.num 42,
                  slug := Json.str "",
                  metaDescription := Json.str "",
                  excerpt := Json.str "",
                  callToAction := Json.str "",
                  sections := Json.arr [],
                  faqs := Json.arr [],
                  affiliateBlocks := Json.arr [],
                  imagePrompts := Json.arr [] } ∧
    Json.num 42 ≠ Json.str "" :=
  ⟨rfl, fun h => Json.noConfusion h⟩

/-- C5 amended: after normalization no field of the article is missing,
and fields are coerced as follows — each list field that is absent or
non-array becomes the empty array (a present array is kept); each text
field that is absent or null becomes the empty string, but a present
non-null text value of the wrong shape is kept unchanged rather than
coerced to its empty default. -/
theorem c5_amended_normalization (fields : List (String × Json)) :
    (((lookupField fields "title" = none ∨
        lookupField fields "title" = some Json.null) →
        (normalizeArticle fields).title = Json.str "") ∧
      (∀ v, lookupField fields "title" = some v → v ≠ Json.null →
        (normalizeArticle fields).title = v)) ∧
    (((lookupField fields "slug" = none ∨
        lookupField fields "slug" = some Json.null) →
        (normalizeArticle fields).slug = Json.str "") ∧
      (∀ v, lookupField fields "slug" = some v → v ≠ Json.null →
        (normalizeArticle fields).slug = v)) ∧
    (((lookupField fields "metaDescription" = none ∨
        lookupField fields "metaDescription" = some Json.null) →
        (normalizeArticle fields).metaDescription = Json.str "") ∧
      (∀ v, lookupField fields "metaDescription" = some v → v ≠ Json.null →
        (normalizeArticle fields).metaDescription = v)) ∧
    (((lookupField fields "excerpt" = none ∨
        lookupField fields "excerpt" = some Json.null) →
        (normalizeArticle fields).excerpt = Json.str "") ∧
      (∀ v, lookupField fields "excerpt" = some v → v ≠ Json.null →
        (normalizeArticle fields).excerpt = v)) ∧
    (((lookupField fields "callToAction" = none ∨
        lookupField fields "callToAction" = some Json.null) →
        (normalizeArticle fields).callToAction = Json.str "") ∧
      (∀ v, lookupField fields "callToAction" = some v → v ≠ Json.null →
        (normalizeArticle fields).callToAction = v)) ∧
    ((∀ xs, lookupField fields "sections" = some (Json.arr xs) →
        (normalizeArticle fields).sections = Json.arr xs) ∧
      ((∀ xs, lookupField fields "sections" ≠ some (Json.arr xs)) →
        (normalizeArticle fields).sections = Json.arr [])) ∧
    ((∀ xs, lookupField fields "faqs" = some (Json.arr xs) →
        (normalizeArticle fields).faqs = Json.arr xs) ∧
      ((∀ xs, lookupField fields "faqs" ≠ some (Json.arr xs)) →
        (normalizeArticle fields).faqs = Json.arr [])) ∧
    ((∀ xs, lookupField fields "affiliateBlocks" = some (Json.arr xs) →
        (normalizeArticle fields).affiliateBlocks = Json.arr xs) ∧
      ((∀ xs, lookupField fields "affiliateBlocks" ≠ some (Json.arr xs)) →
        (normalizeArticle fields).affiliateBlocks = Json.arr [])) ∧
    ((∀ xs, lookupField fields "imagePrompts" = some (Json.arr xs) →
        (normalizeArticle fields).imagePrompts = Json.arr xs) ∧
      ((∀ xs, lookupField fields "imagePrompts" ≠ some (Json.arr xs)) →
        (normalizeArticle fields).imagePrompts = Json.arr [])) :=
  ⟨coerceNullish_spec fields "title", coerceNullish_spec fields "slug",
   coerceNullish_spec fields "metaDescription", coerceNullish_spec fields "excerpt",
   coerceNullish_spec fields "callToAction", coerceArray_spec fields "sections",
   coerceArray_spec fields "faqs", coerceArray_spec fields "affiliateBlocks",
   coerceArray_spec fields "imagePrompts"⟩

/-- C5 amended witness: with only a numeric title present, the title is
kept as the number and the sections fall back to the empty array. -/
theorem c5_amended_normalization_witness :
    (normalizeArticle [("title", Json.num 7)]).title = Json.num 7 ∧
    (normalizeArticle [("title", Json.num 7)]).sections = Json.arr [] :=
  ⟨(c5_amended_normalization [("title", Json.num 7)]).1.2 (Json.num 7) rfl
      (fun h => Json.noConfusion h),
   (c5_amended_normalization [("title", Json.num 7)]).2.2.2.2.2.1.2
      (fun xs h => Option.noConfusion h)⟩

/-- C10 counterexample: a present-but-empty model message content
survives the nullish coalescing (`"" ?? default` keeps `""`), and
`JSON.parse("")` then fails — the drafting stage fails the request
instead of substituting the default article. -/
theorem c10_counterexample :
    assembleArticle (some "") =
      Except.error "Failed to parse article response from model" := rfl

set_option maxRecDepth 8192 in
/-- C10 amended: only a missing (nullish) message content is replaced by
the default payload: drafting then succeeds with the all-empty normalized
article, whose typed reading is the all-empty article, and the pipeline
continues to a successful response (no sections, no FAQs, no image list
field).  A present-but-empty content instead fails the JSON parse and
with it the request. -/
theorem c10_amended_empty_content (input : GenerationRequest)
    (product : ProductSnapshot)
    (spellS : List String → String → SectionsSpellResult)
    (spell : String → String → SpellResult)
    (render : String → Option GeneratedImage) :
    assembleArticle none = Except.ok emptyJsonArticle ∧
    jsonToTyped emptyJsonArticle = some emptyGeneratedArticle ∧
    assembleArticle (some "") =
      Except.error "Failed to parse article response from model" ∧
    (processArticle input product emptyGeneratedArticle spellS spell render).article.sections = [] ∧
    (processArticle input product emptyGeneratedArticle spellS spell render).article.faqs = [] ∧
    (processArticle input product emptyGeneratedArticle spellS spell render).nanoBananaImages = none := by
  have himg : ∀ (b : Bool) (r : String → Option GeneratedImage),
      imageStage b ([] : List String) r = [] := by
    intro b r
    cases b <;> rfl
  refine ⟨rfl, rfl, rfl, rfl, rfl, ?_⟩
  rw [processArticle_nanoBananaImages,
    show emptyGeneratedArticle.imagePrompts = [] from rfl, himg]
  rfl

/-- C9: with N image prompts and the cap of 2 from `pLimit(2)`, at most 2
render calls are ever in flight simultaneously: every scheduler state
reachable from the initial state of the image batch has at most 2 active
calls, for any article. -/
theorem c9_concurrency_bound (article : GeneratedArticle) (s : LimiterState)
    (h : LimiterReachable 2 article s) : s.active ≤ 2 := by
  induction h with
  | refl => exact Nat.zero_le 2
  | tail hsteps hstep ih =>
    cases hstep with
    | start hq ha => exact ha
    | finish ha => exact le_trans (Nat.sub_le _ _) ih

/-- C9 witness: from three queued prompts, two start steps reach the
state with 2 calls in flight; the bound holds there. -/
theorem c9_concurrency_bound_witness :
    ({ queued := 1, active := 2, completed := 0 } : LimiterState).active ≤ 2 :=
  c9_concurrency_bound sampleArticleThreePrompts ⟨1, 2, 0⟩
    (Relation.ReflTransGen.tail
      (Relation.ReflTransGen.tail Relation.ReflTransGen.refl
        (LimiterStep.start ⟨3, 0, 0⟩ (by decide) (by decide)))
      (LimiterStep.start ⟨2, 1, 0⟩ (by decide) (by decide)))

/-- Reading a key other than the removed one is unaffected by
`removeParam`. -/
theorem getParam_removeParam_ne (l : List (String × String))
    (key key2 : String) (hne : key2 ≠ key) :
    getParam (removeParam l key) key2 = getParam l key2 := by
  induction l with
  | nil => rfl
  | cons p l ih =>
    obtain ⟨k, v⟩ := p
    by_cases h : k = key
    · subst h
      have h2 : ¬ k = key2 := fun hc => hne hc.symm
      simp [removeParam, getParam, h2, ih]
    · simp [removeParam, getParam, h, ih]

/-- After `URLSearchParams.set(key, value)` the key reads back as the
value just set. -/
theorem getParam_setParam_self (ps : List (String × String)) (key value : String) :
    getParam (setParam ps key value) key = some value := by
  induction ps with
  | nil => simp [setParam, getParam]
  | cons p rest ih =>
    obtain ⟨k, v⟩ := p
    by_cases h : k = key
    · subst h
      simp [setParam, getParam]
    · simp [setParam, getParam, h, ih]

/-- `URLSearchParams.set` on one key leaves the value read for a
different key unchanged. -/
theorem getParam_setParam_ne (ps : List (String × String))
    (key key2 value : String) (hne : key2 ≠ key) :
    getParam (setParam ps key value) key2 = getParam ps key2 := by
  induction ps with
  | nil =>
    have h2 : ¬ key = key2 := fun hc => hne hc.symm
    simp [setParam, getParam, h2]
  | cons p rest ih =>
    obtain ⟨k, v⟩ := p
    by_cases h : k = key
    · subst h
      have h2 : ¬ k = key2 := fun hc => hne hc.symm
      simp [setParam, getParam, h2, getParam_removeParam_ne rest k key2 hne]
    · simp [setParam, getParam, h, ih]

/-- C6: for every affiliate configuration and product URL,
`buildAffiliateLinks` maps each platform whose entry is present — and by
the configuration's type an entry carries both a base URL and a tag — to
the parsed base URL with the tag set as the `ref` query parameter and the
product URL set as the `target` query parameter; and it silently produces
no entry for any platform whose entry is absent: every produced link key
stems from a present entry. -/
theorem c6_affiliate_links
    (affiliateConfig : List (String × Option AffiliateEntry))
    (productUrl : String) (links : List (String × String))
    (hok : buildAffiliateLinks affiliateConfig productUrl = Except.ok links) :
    (∀ platform entry, (platform, some entry) ∈ affiliateConfig →
      ∃ u, parseURL entry.baseUrl = some u ∧
        getParam (setParam (setParam u.params "ref" entry.tag) "target" productUrl)
          "ref" = some entry.tag ∧
        getParam (setParam (setParam u.params "ref" entry.tag) "target" productUrl)
          "target" = some productUrl ∧
        (platform, serializeURL { u with params := setParam (setParam u.params "ref" entry.tag) "target" productUrl }) ∈ links) ∧
    (∀ platform link, (platform, link) ∈ links →
      ∃ entry, (platform, some entry) ∈ affiliateConfig) := by
  induction affiliateConfig generalizing links with
  | nil =>
    simp only [buildAffiliateLinks] at hok
    have hl : ([] : List (String × String)) = links := Except.ok.inj hok
    subst hl
    exact ⟨fun platform entry h => absurd h (List.not_mem_nil _),
           fun platform link h => absurd h (List.not_mem_nil _)⟩
  | cons head rest ih =>
    obtain ⟨q, cfg⟩ := head
    cases cfg with
    | none =>
      have hok' : buildAffiliateLinks rest productUrl = Except.ok links := hok
      obtain ⟨h1, h2⟩ := ih links hok'
      constructor
      · intro platform entry hmem
        rcases List.mem_cons.mp hmem with heq | hmem'
        · injection heq with hp he
          exact absurd he (by simp)
        · exact h1 platform entry hmem'
      · intro platform link hmem
        obtain ⟨entry, hentry⟩ := h2 platform link hmem
        exact ⟨entry, List.mem_cons_of_mem _ hentry⟩
    | some entry0 =>
      simp only [buildAffiliateLinks] at hok
      cases hu : parseURL entry0.baseUrl with
      | none =>
        rw [hu] at hok
        exact absurd hok (by simp)
      | some u0 =>
        rw [hu] at hok
        cases hrest : buildAffiliateLinks rest productUrl with
        | error e =>
          rw [hrest] at hok
          exact absurd hok (by simp)
        | ok links0 =>
          rw [hrest] at hok
          have hl := Except.ok.inj hok
          subst hl
          obtain ⟨h1, h2⟩ := ih links0 hrest
          constructor
          · intro platform entry hmem
            rcases List.mem_cons.mp hmem with heq | hmem'
            · injection heq with hp he
              injection he with he'
              subst hp
              subst he'
              refine ⟨u0, hu, ?_, ?_, List.mem_cons_self _ _⟩
              · rw [getParam_setParam_ne _ _ _ _ (by decide)]
                exact getParam_setParam_self _ _ _
              · exact getParam_setParam_self _ _ _
            · obtain ⟨u, hu', hr, ht, hlmem⟩ := h1 platform entry hmem'
              exact ⟨u, hu', hr, ht, List.mem_cons_of_mem _ hlmem⟩
          · intro platform link hmem
            rcases List.mem_cons.mp hmem with heq | hmem'
            · injection heq with hp hlink
              subst hp
              exact ⟨entry0, List.mem_cons_self _ _⟩
            · obtain ⟨entry, hentry⟩ := h2 platform link hmem'
              exact ⟨entry, List.mem_cons_of_mem _ hentry⟩

/-- C6 witness: the scenario configuration with the amazon entry
(base URL "https://amzn.to/x", tag "tag123") and product URL
"https://example.com/p" — the produced link parses back the tag under
`ref` and the product URL under `target`, and is the produced entry. -/
theorem c6_affiliate_links_witness :
    ∃ u, parseURL "https://amzn.to/x" = some u ∧
      getParam (setParam (setParam u.params "ref" "tag123") "target"
        "https://example.com/p") "ref" = some "tag123" ∧
      getParam (setParam (setParam u.params "ref" "tag123") "target"
        "https://example.com/p") "target" = some "https://example.com/p" ∧
      ("amazon", serializeURL { u with params := setParam (setParam u.params "ref" "tag123") "target" "https://example.com/p" }) ∈
        [("amazon",
          "https://amzn.to/x?ref=tag123&target=https%3A%2F%2Fexample.com%2Fp")] :=
  (c6_affiliate_links [("amazon", some ⟨"https://amzn.to/x", "tag123"⟩)]
      "https://example.com/p"
      [("amazon",
        "https://amzn.to/x?ref=tag123&target=https%3A%2F%2Fexample.com%2Fp")]
      rfl).1 "amazon" ⟨"https://amzn.to/x", "tag123"⟩ (by decide)
